import Mathlib

/-!
# HIR MVP — Harm–Integrity–Recovery: a shallow embedding

This file embeds the data model and the request handlers of the HIR MVP
service (`app/database.py`, `app/schemas.py`, `app/main.py`) as pure Lean
functions over an explicit store state, and proves the spec's claims about
them.  Timestamps are `Nat`; the current time, the current year and the
random request token are passed to each handler as explicit inputs.
-/

/-- Decimal digit characters of a natural number, most significant first.
Models Python's decimal rendering of an `int` (`f"{n}"`). -/
def natDigits (n : Nat) : List Char :=
  if h : n < 10 then [Nat.digitChar n]
  else natDigits (n / 10) ++ [Nat.digitChar (n % 10)]
decreasing_by exact Nat.div_lt_self (by omega) (by omega)

/-- Value of a digit string read back as a number (a left fold, so leading
zeros do not change the value). -/
def charsVal (cs : List Char) : Nat :=
  cs.foldl (fun a c => a * 10 + (c.toNat - 48)) 0

/-- Digit characters of `n` zero-padded on the left to width 5.
Models Python's `f"{n:05d}"`. -/
def pad5Chars (n : Nat) : List Char :=
  List.replicate (5 - (natDigits n).length) '0' ++ natDigits n

/-- `generate_h_id`'s string: `f"HIR-{year}-{count:05d}"`. -/
def mkHId (year seq : Nat) : String :=
  String.mk (['H', 'I', 'R', '-'] ++ natDigits year ++ ['-'] ++ pad5Chars seq)

/-- `generate_stop_id`'s string: `f"STOP-{year}-{count:05d}"`. -/
def mkStopId (year seq : Nat) : String :=
  String.mk (['S', 'T', 'O', 'P', '-'] ++ natDigits year ++ ['-'] ++ pad5Chars seq)

/-- `generate_recovery_id`'s string: `f"R0-{year}-{count:05d}"`. -/
def mkRecoveryId (year seq : Nat) : String :=
  String.mk (['R', '0', '-'] ++ natDigits year ++ ['-'] ++ pad5Chars seq)

/-- Row of table `h_events` (`database.HEvent`). -/
structure HEvent where
  h_id : String
  status : String
  harm_type : String
  harm_domain : String
  description : String
  severity : String
  confidence : String
  affected_scope : String
  affected_count : Option Int
  horizon : String
  source_type : String
  source_id : Option String
  metadata_ : Option (List (String × String))
  created_at : Nat
  updated_at : Nat
deriving DecidableEq

/-- Row of table `h_stops` (`database.HStop`). -/
structure HStop where
  stop_id : String
  h_id : String
  measure : String
  status : String
  scope_target : Option String
  reason : String
  initiated_by : String
  review_deadline : Nat
  released_at : Option Nat
  release_reason : Option String
  created_at : Nat
deriving DecidableEq

/-- Row of table `recoveries` (`database.Recovery`).  The JSON `measures`
list is modelled with string elements; only its emptiness matters to the
handlers. -/
structure Recovery where
  recovery_id : String
  h_id : String
  status : String
  affected_count : Int
  measures : Option (List String)
  notes : Option String
  created_at : Nat
  updated_at : Nat
deriving DecidableEq

/-- The `details` JSON payloads that `main.py` attaches to audit entries,
one constructor per concrete dict shape used in the handlers. -/
inductive LogDetails where
  | severityOf (severity : String)
  | statusChange (old new reason : Option String)
  | stopInfo (h_id measure : String)
  | releaseInfo (reason : String)
  | recoveryInit (h_id : String) (affected : Int)
  | recoveryStatus (status : Option String)
deriving DecidableEq

/-- Row of table `observe_logs` (`database.ObserveLog`); the autoincrement
integer id is the row's position in the list and is not repeated here. -/
structure ObserveLog where
  request_id : String
  module : String
  action : String
  target_id : Option String
  actor : Option String
  details : Option LogDetails
  timestamp : Nat
deriving DecidableEq

/-- The whole SQLite store: the four tables, rows in insertion order. -/
structure DB where
  events : List HEvent
  stops : List HStop
  recoveries : List Recovery
  logs : List ObserveLog
deriving DecidableEq

/-- The empty store. -/
def initDB : DB := ⟨[], [], [], []⟩

/-- `schemas.HEventCreate`. -/
structure HEventCreate where
  harm_type : String
  harm_domain : String
  description : String
  severity : String
  confidence : String
  affected_scope : String
  affected_count : Option Int
  horizon : String
  source_type : String
  source_id : Option String
  metadata : Option (List (String × String))
deriving DecidableEq

/-- `schemas.HEventStatusUpdate`. -/
structure HEventStatusUpdate where
  status : String
  reason : String
deriving DecidableEq

/-- `schemas.HStopCreate`. -/
structure HStopCreate where
  h_id : String
  measure : String
  scope_target : Option String
  reason : String
  initiated_by : String
  review_deadline : Nat
deriving DecidableEq

/-- `schemas.HStopRelease`. -/
structure HStopRelease where
  reason : String
  released_by : String
deriving DecidableEq

/-- `schemas.RecoveryCreate`. -/
structure RecoveryCreate where
  h_id : String
  affected_count : Int
  measures : Option (List String)
  notes : Option String
deriving DecidableEq

/-- `schemas.RecoveryUpdate`. -/
structure RecoveryUpdate where
  status : Option String
  measures : Option (List String)
  notes : Option String
deriving DecidableEq

/-- Errors a handler can surface: `fastapi.HTTPException(status_code,
detail)` raised in `main.py`, or rejection of the request by FastAPI's
declared query-parameter validation before the handler runs. -/
inductive ApiErr where
  | http (status_code : Nat) (detail : String)
  | validation
deriving DecidableEq

/-- Mutate the first element satisfying `p` (the row `query(...).first()`
returns, which the handler then updates in place). -/
def updateFirst (p : α → Bool) (f : α → α) : List α → List α
  | [] => []
  | x :: xs => if p x then f x :: xs else x :: updateFirst p f xs

/-- `main.log_action`: append one audit entry. -/
def log_action (db : DB) (request_id : String) (now : Nat) (module action : String)
    (target_id actor : Option String) (details : Option LogDetails) : DB :=
  { db with logs := db.logs ++
      [{ request_id := request_id, module := module, action := action,
         target_id := target_id, actor := actor, details := details,
         timestamp := now }] }

/-- `main.generate_h_id`: `HIR-<year>-<zero-padded rowcount+1>`. -/
def generate_h_id (year : Nat) (db : DB) : String :=
  mkHId year (db.events.length + 1)

/-- `main.generate_stop_id`. -/
def generate_stop_id (year : Nat) (db : DB) : String :=
  mkStopId year (db.stops.length + 1)

/-- `main.generate_recovery_id`. -/
def generate_recovery_id (year : Nat) (db : DB) : String :=
  mkRecoveryId year (db.recoveries.length + 1)

/-- `main.create_event` (`POST /api/v1/events`): always succeeds, persists
the record with the generated id and default status `registered`, then
logs `h_event/created`. -/
def create_event (event : HEventCreate) (rid : String) (year now : Nat) (db : DB) :
    HEvent × DB :=
  let h_id := generate_h_id year db
  let db_event : HEvent :=
    { h_id := h_id, status := "registered", harm_type := event.harm_type,
      harm_domain := event.harm_domain, description := event.description,
      severity := event.severity, confidence := event.confidence,
      affected_scope := event.affected_scope, affected_count := event.affected_count,
      horizon := event.horizon, source_type := event.source_type,
      source_id := event.source_id, metadata_ := event.metadata,
      created_at := now, updated_at := now }
  let db1 : DB := { db with events := db.events ++ [db_event] }
  let db2 := log_action db1 rid now "h_event" "created" (some h_id)
    (some event.source_type) (some (.severityOf event.severity))
  (db_event, db2)

/-- `main.get_event` (`GET /api/v1/events/{h_id}`). -/
def get_event (h_id : String) (db : DB) : Except ApiErr HEvent :=
  match db.events.find? (fun e => e.h_id == h_id) with
  | some event => .ok event
  | none => .error (.http 404 ("H-Event " ++ h_id ++ " not found"))

/-- `main.update_event_status` (`PATCH /api/v1/events/{h_id}/status`):
overwrites the status unconditionally, refreshes `updated_at`, logs
`h_event/status_updated` with old/new/reason. -/
def update_event_status (h_id : String) (update : HEventStatusUpdate)
    (rid : String) (now : Nat) (db : DB) : Except ApiErr HEvent × DB :=
  match db.events.find? (fun e => e.h_id == h_id) with
  | none => (.error (.http 404 ("H-Event " ++ h_id ++ " not found")), db)
  | some event =>
    let old_status := event.status
    let event2 := { event with status := update.status, updated_at := now }
    let events1 := updateFirst (fun e => e.h_id == h_id)
      (fun e => { e with status := update.status, updated_at := now }) db.events
    let db1 : DB := { db with events := events1 }
    let db2 := log_action db1 rid now "h_event" "status_updated" (some h_id) none
      (some (.statusChange (some old_status) (some update.status) (some update.reason)))
    (.ok event2, db2)

/-- `main.activate_stop` (`POST /api/v1/stop`): requires the referenced
event to exist, persists the stop with default status `active`, forcibly
sets the event's status to `h_stop_active`, logs `h_stop/activated`. -/
def activate_stop (stop : HStopCreate) (rid : String) (year now : Nat) (db : DB) :
    Except ApiErr HStop × DB :=
  match db.events.find? (fun e => e.h_id == stop.h_id) with
  | none => (.error (.http 404 ("H-Event " ++ stop.h_id ++ " not found")), db)
  | some _ =>
    let stop_id := generate_stop_id year db
    let db_stop : HStop :=
      { stop_id := stop_id, h_id := stop.h_id, measure := stop.measure,
        status := "active", scope_target := stop.scope_target,
        reason := stop.reason, initiated_by := stop.initiated_by,
        review_deadline := stop.review_deadline, released_at := none,
        release_reason := none, created_at := now }
    let events1 := updateFirst (fun e => e.h_id == stop.h_id)
      (fun e => { e with status := "h_stop_active", updated_at := now }) db.events
    let db1 : DB := { db with stops := db.stops ++ [db_stop], events := events1 }
    let db2 := log_action db1 rid now "h_stop" "activated" (some stop_id)
      (some stop.initiated_by) (some (.stopInfo stop.h_id stop.measure))
    (.ok db_stop, db2)

/-- `main.release_stop` (`POST /api/v1/stop/{stop_id}/release`): 404 if the
stop is absent, 400 if already released; otherwise marks it released and,
when the referenced event's status is `h_stop_active`, moves that event to
`investigating`; logs `h_stop/released`. -/
def release_stop (stop_id : String) (release : HStopRelease)
    (rid : String) (now : Nat) (db : DB) : Except ApiErr HStop × DB :=
  match db.stops.find? (fun s => s.stop_id == stop_id) with
  | none => (.error (.http 404 ("H-Stop " ++ stop_id ++ " not found")), db)
  | some db_stop =>
    if db_stop.status == "released" then
      (.error (.http 400 ("H-Stop " ++ stop_id ++ " already released")), db)
    else
      let markReleased : HStop → HStop := fun s =>
        { s with status := "released", released_at := some now,
                 release_reason := some release.reason }
      let stop2 := markReleased db_stop
      let stops1 := updateFirst (fun s => s.stop_id == stop_id) markReleased db.stops
      let events1 :=
        match db.events.find? (fun e => e.h_id == db_stop.h_id) with
        | some event =>
          if event.status == "h_stop_active" then
            updateFirst (fun e => e.h_id == db_stop.h_id)
              (fun e => { e with status := "investigating", updated_at := now }) db.events
          else db.events
        | none => db.events
      let db1 : DB := { db with stops := stops1, events := events1 }
      let db2 := log_action db1 rid now "h_stop" "released" (some stop_id)
        (some release.released_by) (some (.releaseInfo release.reason))
      (.ok stop2, db2)

/-- `main.initiate_recovery` (`POST /api/v1/recovery`): requires the
referenced event, persists the recovery with default status `initiated`,
forcibly sets the event's status to `recovering`, logs `r0/initiated`. -/
def initiate_recovery (recovery : RecoveryCreate) (rid : String) (year now : Nat)
    (db : DB) : Except ApiErr Recovery × DB :=
  match db.events.find? (fun e => e.h_id == recovery.h_id) with
  | none => (.error (.http 404 ("H-Event " ++ recovery.h_id ++ " not found")), db)
  | some _ =>
    let recovery_id := generate_recovery_id year db
    let db_recovery : Recovery :=
      { recovery_id := recovery_id, h_id := recovery.h_id, status := "initiated",
        affected_count := recovery.affected_count, measures := recovery.measures,
        notes := recovery.notes, created_at := now, updated_at := now }
    let events1 := updateFirst (fun e => e.h_id == recovery.h_id)
      (fun e => { e with status := "recovering", updated_at := now }) db.events
    let db1 : DB := { db with recoveries := db.recoveries ++ [db_recovery], events := events1 }
    let db2 := log_action db1 rid now "r0" "initiated" (some recovery_id) none
      (some (.recoveryInit recovery.h_id recovery.affected_count))
    (.ok db_recovery, db2)

/-- Python truthiness of an optional string (`if update.status:` is false
for both `None` and `""`). -/
def truthyStr : Option String → Bool
  | none => false
  | some s => !(s == "")

/-- Python truthiness of an optional list (`None` and `[]` are falsy). -/
def truthyList : Option (List String) → Bool
  | none => false
  | some l => !l.isEmpty

/-- The in-place field mutation performed by `main.update_recovery` on the
fetched row: each of status/measures/notes is overwritten only when the
supplied value is truthy; `updated_at` is always refreshed. -/
def apply_recovery_update (update : RecoveryUpdate) (now : Nat) (r : Recovery) : Recovery :=
  { r with
    status := if truthyStr update.status then update.status.getD r.status else r.status,
    measures := if truthyList update.measures then update.measures else r.measures,
    notes := if truthyStr update.notes then update.notes else r.notes,
    updated_at := now }

/-- `main.update_recovery` (`PATCH /api/v1/recovery/{recovery_id}`): 404
when the recovery is absent; otherwise applies the partial update and logs
`r0/updated`. -/
def update_recovery (recovery_id : String) (update : RecoveryUpdate)
    (rid : String) (now : Nat) (db : DB) : Except ApiErr Recovery × DB :=
  match db.recoveries.find? (fun r => r.recovery_id == recovery_id) with
  | none => (.error (.http 404 ("Recovery " ++ recovery_id ++ " not found")), db)
  | some db_recovery =>
    let upd : Recovery → Recovery := apply_recovery_update update now
    let recovery2 := upd db_recovery
    let recoveries1 := updateFirst (fun r => r.recovery_id == recovery_id) upd db.recoveries
    let db1 : DB := { db with recoveries := recoveries1 }
    let db2 := log_action db1 rid now "r0" "updated" (some recovery_id) none
      (some (.recoveryStatus update.status))
    (.ok recovery2, db2)

/-- Ordering used by `GET /api/v1/observe/logs`: timestamp descending. -/
def logNewerEq (a b : ObserveLog) : Prop := b.timestamp ≤ a.timestamp

instance : DecidableRel logNewerEq := fun a b => Nat.decLe b.timestamp a.timestamp

instance : IsTotal ObserveLog logNewerEq :=
  ⟨fun a b => Nat.le_total b.timestamp a.timestamp⟩

instance : IsTrans ObserveLog logNewerEq :=
  ⟨fun _ _ _ hab hbc => Nat.le_trans hbc hab⟩

/-- `main.get_logs` (`GET /api/v1/observe/logs`): the `limit` query
parameter defaults to 100 and is declared `le=1000`, so FastAPI rejects a
larger value before the handler runs; otherwise the handler filters,
orders by timestamp descending and truncates at `limit`. -/
def get_logs (module target_id : Option String) (limit : Option Nat) (db : DB) :
    Except ApiErr (List ObserveLog) :=
  let lim := limit.getD 100
  if lim > 1000 then .error .validation
  else
    let filtered := db.logs.filter (fun l =>
      (match module with | some m => l.module == m | none => true) &&
      (match target_id with | some t => l.target_id == some t | none => true))
    .ok ((List.insertionSort logNewerEq filtered).take lim)

/-- Checker for the spec's identifier shape
`HIR-<4-digit-year>-<5-digit-seq>`. -/
def matchesHIRPattern (s : String) : Bool :=
  match s.data with
  | 'H' :: 'I' :: 'R' :: '-' :: rest =>
    (rest.take 4).length == 4 && (rest.take 4).all (·.isDigit) &&
      (match rest.drop 4 with
       | '-' :: seq => seq.length == 5 && seq.all (·.isDigit)
       | _ => false)
  | _ => false

/-- States of the store reachable from the empty store by any sequence of
handler calls (with arbitrary request bodies, clock readings and request
tokens); a failing call keeps the state returned alongside the error. -/
inductive Reachable : DB → Prop where
  | init : Reachable initDB
  | create (event : HEventCreate) (rid : String) (year now : Nat) (db : DB) :
      Reachable db → Reachable (create_event event rid year now db).2
  | upd_status (h_id : String) (update : HEventStatusUpdate) (rid : String)
      (now : Nat) (db : DB) :
      Reachable db → Reachable (update_event_status h_id update rid now db).2
  | activate (stop : HStopCreate) (rid : String) (year now : Nat) (db : DB) :
      Reachable db → Reachable (activate_stop stop rid year now db).2
  | release (stop_id : String) (release : HStopRelease) (rid : String)
      (now : Nat) (db : DB) :
      Reachable db → Reachable (release_stop stop_id release rid now db).2
  | initiate (recovery : RecoveryCreate) (rid : String) (year now : Nat) (db : DB) :
      Reachable db → Reachable (initiate_recovery recovery rid year now db).2
  | upd_recovery (recovery_id : String) (update : RecoveryUpdate) (rid : String)
      (now : Nat) (db : DB) :
      Reachable db → Reachable (update_recovery recovery_id update rid now db).2

/-- Invariant on the stored event ids: the row at index `i` carries the id
generated from sequence number `i + 1` (for some year label). -/
def GoodIds (ids : List String) : Prop :=
  ∀ i (h : i < ids.length), ∃ y, ids[i] = mkHId y (i + 1)

/-- A sample event row used to instantiate the theorems. -/
def evA : HEvent :=
  { h_id := "HIR-2025-00001", status := "h_stop_active", harm_type := "direct",
    harm_domain := "model", description := "demo", severity := "high",
    confidence := "high", affected_scope := "individual", affected_count := none,
    horizon := "immediate", source_type := "human", source_id := none,
    metadata_ := none, created_at := 0, updated_at := 0 }

/-- A sample active stop row referencing `evA`. -/
def stopA : HStop :=
  { stop_id := "STOP-2025-00001", h_id := "HIR-2025-00001", measure := "pause",
    status := "active", scope_target := none, reason := "halt", initiated_by := "operator",
    review_deadline := 10, released_at := none, release_reason := none, created_at := 0 }

/-- A sample recovery row referencing `evA`. -/
def recA : Recovery :=
  { recovery_id := "R0-2025-00001", h_id := "HIR-2025-00001", status := "initiated",
    affected_count := 0, measures := none, notes := none, created_at := 0,
    updated_at := 0 }

/-- A sample store with one event, one active stop and one recovery. -/
def dbA : DB := ⟨[evA], [stopA], [recA], []⟩

/-- A sample store whose stop is already released. -/
def dbReleased : DB :=
  ⟨[evA], [{ stopA with status := "released" }], [recA], []⟩

/-- A sample store whose stop has status `extended`. -/
def dbExtended : DB :=
  ⟨[evA], [{ stopA with status := "extended" }], [recA], []⟩

/-- A sample store with a stop whose referenced event is absent. -/
def dbNoEvent : DB := ⟨[], [stopA], [], []⟩

/-- A sample event-creation request body. -/
def evReq : HEventCreate :=
  ⟨"direct", "model", "demo", "high", "high", "individual", none, "immediate",
   "human", none, none⟩

theorem natDigits_of_lt (n : Nat) (h : n < 10) : natDigits n = [Nat.digitChar n] := by
  rw [natDigits, dif_pos h]

theorem natDigits_of_ge (n : Nat) (h : 10 ≤ n) :
    natDigits n = natDigits (n / 10) ++ [Nat.digitChar (n % 10)] := by
  rw [natDigits, dif_neg (by omega)]

theorem digitChar_isDigit : ∀ m, m < 10 → (Nat.digitChar m).isDigit = true := by decide

theorem digitChar_val : ∀ m, m < 10 → (Nat.digitChar m).toNat - 48 = m := by decide

theorem mem_natDigits_isDigit (n : Nat) : ∀ c ∈ natDigits n, c.isDigit = true := by
  induction n using Nat.strong_induction_on with
  | _ n ih =>
    intro c hc
    by_cases h : n < 10
    · rw [natDigits_of_lt n h] at hc
      simp only [List.mem_singleton] at hc
      exact hc ▸ digitChar_isDigit n h
    · rw [natDigits_of_ge n (by omega)] at hc
      rcases List.mem_append.mp hc with h1 | h2
      · exact ih (n / 10) (Nat.div_lt_self (by omega) (by omega)) c h1
      · simp only [List.mem_singleton] at h2
        exact h2 ▸ digitChar_isDigit (n % 10) (Nat.mod_lt n (by omega))

theorem dash_not_mem_natDigits (n : Nat) : '-' ∉ natDigits n := by
  intro hmem
  exact absurd (mem_natDigits_isDigit n '-' hmem) (by decide)

theorem natDigits_length_le : ∀ m, 1 ≤ m → ∀ k, k < 10 ^ m → (natDigits k).length ≤ m := by
  intro m
  induction m with
  | zero => omega
  | succ m ih =>
    intro _ k hk
    by_cases h : k < 10
    · rw [natDigits_of_lt k h]
      simp
    · have hm : 1 ≤ m := by
        rcases Nat.eq_zero_or_pos m with h0 | h1
        · subst h0; simp at hk; omega
        · exact h1
      have hdiv : k / 10 < 10 ^ m := by
        have hk' : k < 10 ^ m * 10 := by
          rw [pow_succ] at hk; exact hk
        exact (Nat.div_lt_iff_lt_mul (by omega)).mpr hk'
      have := ih hm (k / 10) hdiv
      rw [natDigits_of_ge k (by omega)]
      simp only [List.length_append, List.length_singleton]
      omega

theorem natDigits_length_four (y : Nat) (h1 : 1000 ≤ y) (h2 : y ≤ 9999) :
    (natDigits y).length = 4 := by
  rw [natDigits_of_ge y (by omega), natDigits_of_ge (y / 10) (by omega),
    natDigits_of_ge (y / 10 / 10) (by omega), natDigits_of_lt (y / 10 / 10 / 10) (by omega)]
  simp

theorem pad5Chars_length (k : Nat) (h : k < 100000) : (pad5Chars k).length = 5 := by
  have hle : (natDigits k).length ≤ 5 := by
    refine natDigits_length_le 5 (by omega) k ?_
    have h5 : (10 : Nat) ^ 5 = 100000 := by norm_num
    omega
  unfold pad5Chars
  simp only [List.length_append, List.length_replicate]
  omega

theorem mem_pad5Chars_isDigit (k : Nat) : ∀ c ∈ pad5Chars k, c.isDigit = true := by
  intro c hc
  rcases List.mem_append.mp hc with h1 | h2
  · have := List.eq_of_mem_replicate h1
    subst this
    decide
  · exact mem_natDigits_isDigit k c h2

theorem foldl_digits_natDigits (n : Nat) :
    ∀ a, List.foldl (fun a c => a * 10 + (c.toNat - 48)) a (natDigits n) =
      a * 10 ^ (natDigits n).length + n := by
  induction n using Nat.strong_induction_on with
  | _ n ih =>
    intro a
    by_cases h : n < 10
    · rw [natDigits_of_lt n h]
      simp only [List.foldl_cons, List.foldl_nil, List.length_singleton, pow_one]
      rw [digitChar_val n h]
    · rw [natDigits_of_ge n (by omega), List.foldl_append,
        ih (n / 10) (Nat.div_lt_self (by omega) (by omega)) a]
      simp only [List.foldl_cons, List.foldl_nil, List.length_append, List.length_singleton]
      rw [digitChar_val (n % 10) (Nat.mod_lt n (by omega))]
      have hdm : n / 10 * 10 + n % 10 = n := by omega
      have hpow : (10 : Nat) ^ ((natDigits (n / 10)).length + 1) =
          10 ^ (natDigits (n / 10)).length * 10 := by rw [pow_succ]
      rw [hpow]
      ring_nf
      omega

theorem charsVal_natDigits (n : Nat) : charsVal (natDigits n) = n := by
  unfold charsVal
  rw [foldl_digits_natDigits]
  simp

theorem foldl_digits_replicate_zero (k : Nat) :
    List.foldl (fun a c => a * 10 + (c.toNat - 48)) 0 (List.replicate k '0') = 0 := by
  induction k with
  | zero => rfl
  | succ k ih =>
    rw [List.replicate_succ, List.foldl_cons]
    simpa using ih

theorem charsVal_pad5Chars (k : Nat) : charsVal (pad5Chars k) = k := by
  unfold charsVal pad5Chars
  rw [List.foldl_append, foldl_digits_replicate_zero, foldl_digits_natDigits]
  simp

theorem append_dash_inj : ∀ (a b r s : List Char), '-' ∉ a → '-' ∉ b →
    a ++ '-' :: r = b ++ '-' :: s → r = s := by
  intro a
  induction a with
  | nil =>
    intro b r s _ hb h
    cases b with
    | nil => simpa using h
    | cons d b' =>
      simp only [List.nil_append, List.cons_append, List.cons.injEq] at h
      exact absurd (h.1 ▸ List.mem_cons_self d b') hb
  | cons c a' ih =>
    intro b r s ha hb h
    cases b with
    | nil =>
      simp only [List.cons_append, List.nil_append, List.cons.injEq] at h
      exact absurd (h.1 ▸ List.mem_cons_self c a') ha
    | cons d b' =>
      simp only [List.cons_append, List.cons.injEq] at h
      refine ih b' r s (fun hm => ha (List.mem_cons_of_mem c hm))
        (fun hm => hb (List.mem_cons_of_mem d hm)) h.2

theorem mkHId_inj_seq {y1 k1 y2 k2 : Nat} (h : mkHId y1 k1 = mkHId y2 k2) : k1 = k2 := by
  unfold mkHId at h
  have h' := congrArg String.data h
  simp only [List.append_assoc, List.cons_append, List.nil_append, List.cons.injEq,
    true_and] at h'
  have h'' := append_dash_inj (natDigits y1) (natDigits y2) (pad5Chars k1) (pad5Chars k2)
    (dash_not_mem_natDigits y1) (dash_not_mem_natDigits y2) h'
  have hv := congrArg charsVal h''
  rwa [charsVal_pad5Chars, charsVal_pad5Chars] at hv

theorem map_updateFirst {α β : Type} (p : α → Bool) (f : α → α) (g : α → β)
    (hf : ∀ a, g (f a) = g a) : ∀ l : List α, (updateFirst p f l).map g = l.map g := by
  intro l
  induction l with
  | nil => rfl
  | cons x xs ih =>
    unfold updateFirst
    by_cases hx : p x = true
    · simp [hx, hf x]
    · simp only [Bool.not_eq_true] at hx
      simp [hx, ih]

theorem find?_updateFirst {α : Type} (p : α → Bool) (f : α → α) (x : α)
    (hfx : p (f x) = true) : ∀ l : List α, l.find? p = some x →
    (updateFirst p f l).find? p = some (f x) := by
  intro l
  induction l with
  | nil => intro h; simp at h
  | cons y ys ih =>
    intro h
    by_cases hy : p y = true
    · rw [List.find?_cons_of_pos _ hy] at h
      injection h with h
      subst h
      unfold updateFirst
      simp only [hy, if_true]
      exact List.find?_cons_of_pos _ hfx
    · simp only [Bool.not_eq_true] at hy
      rw [List.find?_cons_of_neg _ (by simp [hy])] at h
      unfold updateFirst
      simp only [hy, Bool.false_eq_true, if_false]
      rw [List.find?_cons_of_neg _ (by simp [hy])]
      exact ih h

theorem events_map_h_id_update_event_status (h_id : String) (update : HEventStatusUpdate)
    (rid : String) (now : Nat) (db : DB) :
    ((update_event_status h_id update rid now db).2).events.map HEvent.h_id =
      db.events.map HEvent.h_id := by
  unfold update_event_status
  cases hfind : db.events.find? (fun e => e.h_id == h_id) with
  | none => rfl
  | some event =>
    simp only [log_action]
    refine map_updateFirst _ _ _ (fun a => ?_) db.events
    rfl

theorem events_map_h_id_activate_stop (stop : HStopCreate) (rid : String)
    (year now : Nat) (db : DB) :
    ((activate_stop stop rid year now db).2).events.map HEvent.h_id =
      db.events.map HEvent.h_id := by
  unfold activate_stop
  cases hfind : db.events.find? (fun e => e.h_id == stop.h_id) with
  | none => rfl
  | some event =>
    simp only [log_action]
    refine map_updateFirst _ _ _ (fun a => ?_) db.events
    rfl

theorem events_map_h_id_release_stop (stop_id : String) (release : HStopRelease)
    (rid : String) (now : Nat) (db : DB) :
    ((release_stop stop_id release rid now db).2).events.map HEvent.h_id =
      db.events.map HEvent.h_id := by
  unfold release_stop
  cases hfind : db.stops.find? (fun s => s.stop_id == stop_id) with
  | none => rfl
  | some db_stop =>
    by_cases hrel : db_stop.status == "released"
    · simp [hrel]
    · simp only [hrel, Bool.false_eq_true, if_false, log_action]
      cases hev : db.events.find? (fun e => e.h_id == db_stop.h_id) with
      | none => rfl
      | some event =>
        by_cases hact : event.status == "h_stop_active"
        · simp only [hact, if_true]
          refine map_updateFirst _ _ _ (fun a => ?_) db.events
          rfl
        · simp [hact]

theorem events_map_h_id_initiate_recovery (recovery : RecoveryCreate) (rid : String)
    (year now : Nat) (db : DB) :
    ((initiate_recovery recovery rid year now db).2).events.map HEvent.h_id =
      db.events.map HEvent.h_id := by
  unfold initiate_recovery
  cases hfind : db.events.find? (fun e => e.h_id == recovery.h_id) with
  | none => rfl
  | some event =>
    simp only [log_action]
    refine map_updateFirst _ _ _ (fun a => ?_) db.events
    rfl

theorem events_map_h_id_update_recovery (recovery_id : String) (update : RecoveryUpdate)
    (rid : String) (now : Nat) (db : DB) :
    ((update_recovery recovery_id update rid now db).2).events.map HEvent.h_id =
      db.events.map HEvent.h_id := by
  unfold update_recovery
  cases hfind : db.recoveries.find? (fun r => r.recovery_id == recovery_id) with
  | none => rfl
  | some db_recovery => rfl

theorem events_map_h_id_create_event (event : HEventCreate) (rid : String)
    (year now : Nat) (db : DB) :
    ((create_event event rid year now db).2).events.map HEvent.h_id =
      db.events.map HEvent.h_id ++ [mkHId year (db.events.length + 1)] := by
  unfold create_event generate_h_id log_action
  simp

theorem goodIds_append (ids : List String) (y : Nat) (h : GoodIds ids) :
    GoodIds (ids ++ [mkHId y (ids.length + 1)]) := by
  intro i hi
  rw [List.length_append, List.length_singleton] at hi
  by_cases hlt : i < ids.length
  · obtain ⟨y', hy'⟩ := h i hlt
    exact ⟨y', by rw [List.getElem_append_left hlt]; exact hy'⟩
  · have hieq : i = ids.length := by omega
    subst hieq
    exact ⟨y, by simp⟩

theorem goodIds_nodup (ids : List String) (h : GoodIds ids) : ids.Nodup := by
  rw [List.Nodup, List.pairwise_iff_getElem]
  intro i j hi hj hij
  obtain ⟨yi, hyi⟩ := h i hi
  obtain ⟨yj, hyj⟩ := h j hj
  rw [hyi, hyj]
  intro hEq
  have := mkHId_inj_seq hEq
  omega

theorem goodIds_not_mem (ids : List String) (h : GoodIds ids) (y k : Nat)
    (hk : ids.length < k) : mkHId y k ∉ ids := by
  intro hmem
  obtain ⟨i, hi, hEq⟩ := List.mem_iff_getElem.mp hmem
  obtain ⟨y', hy'⟩ := h i hi
  rw [hy'] at hEq
  have := mkHId_inj_seq hEq
  omega

theorem reachable_goodIds {db : DB} (h : Reachable db) :
    GoodIds (db.events.map HEvent.h_id) := by
  induction h with
  | init =>
    intro i hi
    simp [initDB] at hi
  | create event rid year now db hdb ih =>
    rw [events_map_h_id_create_event]
    have hlen : db.events.length = (db.events.map HEvent.h_id).length := by simp
    rw [hlen]
    exact goodIds_append _ year ih
  | upd_status h_id update rid now db hdb ih =>
    rw [events_map_h_id_update_event_status]
    exact ih
  | activate stop rid year now db hdb ih =>
    rw [events_map_h_id_activate_stop]
    exact ih
  | release stop_id release rid now db hdb ih =>
    rw [events_map_h_id_release_stop]
    exact ih
  | initiate recovery rid year now db hdb ih =>
    rw [events_map_h_id_initiate_recovery]
    exact ih
  | upd_recovery recovery_id update rid now db hdb ih =>
    rw [events_map_h_id_update_recovery]
    exact ih

theorem release_err_of_released (stop_id : String) (release : HStopRelease)
    (rid : String) (now : Nat) (db : DB) (st : HStop)
    (hfind : db.stops.find? (fun s => s.stop_id == stop_id) = some st)
    (hst : st.status = "released") :
    release_stop stop_id release rid now db =
      (.error (.http 400 ("H-Stop " ++ stop_id ++ " already released")), db) := by
  unfold release_stop
  rw [hfind]
  simp [hst]

theorem release_ok_of_not_released (stop_id : String) (release : HStopRelease)
    (rid : String) (now : Nat) (db : DB) (st : HStop)
    (hfind : db.stops.find? (fun s => s.stop_id == stop_id) = some st)
    (hst : st.status ≠ "released") :
    (release_stop stop_id release rid now db).1 =
      .ok { st with status := "released", released_at := some now, release_reason := some release.reason } := by
  unfold release_stop
  rw [hfind]
  have hb : (st.status == "released") = false := by simpa using hst
  simp [hb]

theorem release_stops_after (stop_id : String) (release : HStopRelease)
    (rid : String) (now : Nat) (db : DB) (st : HStop)
    (hfind : db.stops.find? (fun s => s.stop_id == stop_id) = some st)
    (hst : st.status ≠ "released") :
    ((release_stop stop_id release rid now db).2).stops.find?
        (fun s => s.stop_id == stop_id) =
      some { st with status := "released", released_at := some now, release_reason := some release.reason } := by
  unfold release_stop
  rw [hfind]
  have hb : (st.status == "released") = false := by simpa using hst
  have hp := List.find?_some hfind
  have hfu := find?_updateFirst (fun s => s.stop_id == stop_id)
    (fun s : HStop => { s with status := "released", released_at := some now, release_reason := some release.reason })
    st hp db.stops hfind
  cases hev : db.events.find? (fun e => e.h_id == st.h_id) with
  | none => simp [hb, hev, log_action, hfu]
  | some event =>
    by_cases hact : event.status == "h_stop_active"
    · simp [hb, hev, hact, log_action, hfu]
    · simp [hb, hev, hact, log_action, hfu]

theorem release_events_after_active (stop_id : String) (release : HStopRelease)
    (rid : String) (now : Nat) (db : DB) (st : HStop) (ev : HEvent)
    (hfind : db.stops.find? (fun s => s.stop_id == stop_id) = some st)
    (hst : st.status ≠ "released")
    (hev : db.events.find? (fun e => e.h_id == st.h_id) = some ev)
    (hact : ev.status = "h_stop_active") :
    ((release_stop stop_id release rid now db).2).events.find?
        (fun e => e.h_id == st.h_id) =
      some { ev with status := "investigating", updated_at := now } := by
  unfold release_stop
  rw [hfind]
  have hb : (st.status == "released") = false := by simpa using hst
  have hp := List.find?_some hev
  have hfu := find?_updateFirst (fun e => e.h_id == st.h_id)
    (fun e : HEvent => { e with status := "investigating", updated_at := now }) ev hp db.events hev
  simp [hb, hev, hact, log_action, hfu]

theorem release_events_after_other (stop_id : String) (release : HStopRelease)
    (rid : String) (now : Nat) (db : DB) (st : HStop) (ev : HEvent)
    (hfind : db.stops.find? (fun s => s.stop_id == stop_id) = some st)
    (hst : st.status ≠ "released")
    (hev : db.events.find? (fun e => e.h_id == st.h_id) = some ev)
    (hact : ev.status ≠ "h_stop_active") :
    ((release_stop stop_id release rid now db).2).events = db.events := by
  unfold release_stop
  rw [hfind]
  have hb : (st.status == "released") = false := by simpa using hst
  have ha : (ev.status == "h_stop_active") = false := by simpa using hact
  simp [hb, hev, ha, log_action]

theorem release_events_after_missing (stop_id : String) (release : HStopRelease)
    (rid : String) (now : Nat) (db : DB) (st : HStop)
    (hfind : db.stops.find? (fun s => s.stop_id == stop_id) = some st)
    (hst : st.status ≠ "released")
    (hev : db.events.find? (fun e => e.h_id == st.h_id) = none) :
    ((release_stop stop_id release rid now db).2).events = db.events := by
  unfold release_stop
  rw [hfind]
  have hb : (st.status == "released") = false := by simpa using hst
  simp [hb, hev, log_action]

theorem activate_err_of_missing (stop : HStopCreate) (rid : String) (year now : Nat)
    (db : DB) (hfind : db.events.find? (fun e => e.h_id == stop.h_id) = none) :
    activate_stop stop rid year now db =
      (.error (.http 404 ("H-Event " ++ stop.h_id ++ " not found")), db) := by
  unfold activate_stop
  rw [hfind]

theorem activate_ok (stop : HStopCreate) (rid : String) (year now : Nat)
    (db : DB) (ev : HEvent)
    (hfind : db.events.find? (fun e => e.h_id == stop.h_id) = some ev) :
    (activate_stop stop rid year now db).1 =
      .ok { stop_id := generate_stop_id year db, h_id := stop.h_id, measure := stop.measure, status := "active", scope_target := stop.scope_target, reason := stop.reason, initiated_by := stop.initiated_by, review_deadline := stop.review_deadline, released_at := none, release_reason := none, created_at := now } := by
  unfold activate_stop
  rw [hfind]

theorem activate_events_after (stop : HStopCreate) (rid : String) (year now : Nat)
    (db : DB) (ev : HEvent)
    (hfind : db.events.find? (fun e => e.h_id == stop.h_id) = some ev) :
    ((activate_stop stop rid year now db).2).events.find?
        (fun e => e.h_id == stop.h_id) =
      some { ev with status := "h_stop_active", updated_at := now } := by
  unfold activate_stop
  rw [hfind]
  have hp := List.find?_some hfind
  have hfu := find?_updateFirst (fun e => e.h_id == stop.h_id)
    (fun e : HEvent => { e with status := "h_stop_active", updated_at := now }) ev hp db.events hfind
  simp [log_action, hfu]

theorem upd_status_err_of_missing (h_id : String) (update : HEventStatusUpdate)
    (rid : String) (now : Nat) (db : DB)
    (hfind : db.events.find? (fun e => e.h_id == h_id) = none) :
    update_event_status h_id update rid now db =
      (.error (.http 404 ("H-Event " ++ h_id ++ " not found")), db) := by
  unfold update_event_status
  rw [hfind]

theorem upd_status_ok (h_id : String) (update : HEventStatusUpdate)
    (rid : String) (now : Nat) (db : DB) (ev : HEvent)
    (hfind : db.events.find? (fun e => e.h_id == h_id) = some ev) :
    (update_event_status h_id update rid now db).1 =
      .ok { ev with status := update.status, updated_at := now } := by
  unfold update_event_status
  rw [hfind]

theorem upd_status_events_after (h_id : String) (update : HEventStatusUpdate)
    (rid : String) (now : Nat) (db : DB) (ev : HEvent)
    (hfind : db.events.find? (fun e => e.h_id == h_id) = some ev) :
    ((update_event_status h_id update rid now db).2).events.find?
        (fun e => e.h_id == h_id) =
      some { ev with status := update.status, updated_at := now } := by
  unfold update_event_status
  rw [hfind]
  have hp := List.find?_some hfind
  have hfu := find?_updateFirst (fun e => e.h_id == h_id)
    (fun e : HEvent => { e with status := update.status, updated_at := now }) ev hp db.events hfind
  simp [log_action, hfu]

theorem upd_recovery_err_of_missing (recovery_id : String) (update : RecoveryUpdate)
    (rid : String) (now : Nat) (db : DB)
    (hfind : db.recoveries.find? (fun r => r.recovery_id == recovery_id) = none) :
    update_recovery recovery_id update rid now db =
      (.error (.http 404 ("Recovery " ++ recovery_id ++ " not found")), db) := by
  unfold update_recovery
  rw [hfind]

theorem upd_recovery_ok (recovery_id : String) (update : RecoveryUpdate)
    (rid : String) (now : Nat) (db : DB) (rec : Recovery)
    (hfind : db.recoveries.find? (fun r => r.recovery_id == recovery_id) = some rec) :
    (update_recovery recovery_id update rid now db).1 =
      .ok (apply_recovery_update update now rec) := by
  unfold update_recovery
  rw [hfind]

theorem upd_recovery_stored (recovery_id : String) (update : RecoveryUpdate)
    (rid : String) (now : Nat) (db : DB) (rec : Recovery)
    (hfind : db.recoveries.find? (fun r => r.recovery_id == recovery_id) = some rec) :
    ((update_recovery recovery_id update rid now db).2).recoveries.find?
        (fun r => r.recovery_id == recovery_id) =
      some (apply_recovery_update update now rec) := by
  unfold update_recovery
  rw [hfind]
  have hp := List.find?_some hfind
  have hfu := find?_updateFirst (fun r => r.recovery_id == recovery_id)
    (apply_recovery_update update now) rec hp db.recoveries hfind
  simp [log_action, hfu]

theorem logs_after_create (event : HEventCreate) (rid : String) (year now : Nat)
    (db : DB) :
    ((create_event event rid year now db).2).logs = db.logs ++
      [⟨rid, "h_event", "created", some (generate_h_id year db),
        some event.source_type, some (.severityOf event.severity), now⟩] := by
  rfl

theorem logs_after_activate (stop : HStopCreate) (rid : String) (year now : Nat)
    (db : DB) :
    ((activate_stop stop rid year now db).2).logs = db.logs ++
      (match db.events.find? (fun e => e.h_id == stop.h_id) with
       | some _ => [⟨rid, "h_stop", "activated", some (generate_stop_id year db),
           some stop.initiated_by, some (.stopInfo stop.h_id stop.measure), now⟩]
       | none => []) := by
  unfold activate_stop
  cases hfind : db.events.find? (fun e => e.h_id == stop.h_id) with
  | none => simp
  | some ev => simp [log_action]

theorem logs_after_release (stop_id : String) (release : HStopRelease)
    (rid : String) (now : Nat) (db : DB) :
    ((release_stop stop_id release rid now db).2).logs = db.logs ++
      (match db.stops.find? (fun s => s.stop_id == stop_id) with
       | some st =>
         if st.status == "released" then []
         else [⟨rid, "h_stop", "released", some stop_id, some release.released_by,
           some (.releaseInfo release.reason), now⟩]
       | none => []) := by
  unfold release_stop
  cases hfind : db.stops.find? (fun s => s.stop_id == stop_id) with
  | none => simp
  | some st =>
    by_cases hrel : st.status == "released"
    · simp [hrel]
    · simp only [hrel, Bool.false_eq_true, if_false]
      cases hev : db.events.find? (fun e => e.h_id == st.h_id) with
      | none => simp [log_action]
      | some ev =>
        by_cases hact : ev.status == "h_stop_active"
        · simp [hact, log_action]
        · simp [hact, log_action]

theorem logs_after_initiate (recovery : RecoveryCreate) (rid : String) (year now : Nat)
    (db : DB) :
    ((initiate_recovery recovery rid year now db).2).logs = db.logs ++
      (match db.events.find? (fun e => e.h_id == recovery.h_id) with
       | some _ => [⟨rid, "r0", "initiated", some (generate_recovery_id year db),
           none, some (.recoveryInit recovery.h_id recovery.affected_count), now⟩]
       | none => []) := by
  unfold initiate_recovery
  cases hfind : db.events.find? (fun e => e.h_id == recovery.h_id) with
  | none => simp
  | some ev => simp [log_action]

theorem logs_after_upd_recovery (recovery_id : String) (update : RecoveryUpdate)
    (rid : String) (now : Nat) (db : DB) :
    ((update_recovery recovery_id update rid now db).2).logs = db.logs ++
      (match db.recoveries.find? (fun r => r.recovery_id == recovery_id) with
       | some _ => [⟨rid, "r0", "updated", some recovery_id, none,
           some (.recoveryStatus update.status), now⟩]
       | none => []) := by
  unfold update_recovery
  cases hfind : db.recoveries.find? (fun r => r.recovery_id == recovery_id) with
  | none => simp
  | some rec => simp [log_action]

theorem logs_after_upd_status (h_id : String) (update : HEventStatusUpdate)
    (rid : String) (now : Nat) (db : DB) :
    ((update_event_status h_id update rid now db).2).logs = db.logs ++
      (match db.events.find? (fun e => e.h_id == h_id) with
       | some ev => [⟨rid, "h_event", "status_updated", some h_id, none,
           some (.statusChange (some ev.status) (some update.status) (some update.reason)), now⟩]
       | none => []) := by
  unfold update_event_status
  cases hfind : db.events.find? (fun e => e.h_id == h_id) with
  | none => simp
  | some ev => simp [log_action]

theorem matchesHIRPattern_mkHId (y k : Nat) (hy1 : 1000 ≤ y) (hy2 : y ≤ 9999)
    (hk : k < 100000) : matchesHIRPattern (mkHId y k) = true := by
  have h4 : (natDigits y).length = 4 := natDigits_length_four y hy1 hy2
  have h5 : (pad5Chars k).length = 5 := pad5Chars_length k hk
  unfold matchesHIRPattern mkHId
  simp only [List.cons_append, List.nil_append, List.append_assoc]
  have htake : (natDigits y ++ ('-' :: pad5Chars k)).take 4 = natDigits y := by
    rw [← h4]
    exact List.take_left (natDigits y) ('-' :: pad5Chars k)
  have hdrop : (natDigits y ++ ('-' :: pad5Chars k)).drop 4 = '-' :: pad5Chars k := by
    rw [← h4]
    exact List.drop_left (natDigits y) ('-' :: pad5Chars k)
  rw [htake, hdrop]
  simp only [h4, h5, beq_self_eq_true, Bool.true_and, Bool.and_eq_true, List.all_eq_true]
  exact ⟨fun c hc => mem_natDigits_isDigit y c hc, fun c hc => mem_pad5Chars_isDigit k c hc⟩

/-- C1: releasing a stop whose stored status is `released` always fails with
HTTP 400 "already released" and leaves the store unchanged; in particular,
after a successful release of a stop, a second release of the same stop
always fails that way, so the stop's stored status, `released_at` and
`release_reason` are left unchanged by the second call. -/
theorem claim_C1 (stop_id : String) (release : HStopRelease) (rid : String)
    (now : Nat) (db : DB) (st : HStop)
    (hfind : db.stops.find? (fun s => s.stop_id == stop_id) = some st) :
    (st.status = "released" →
      release_stop stop_id release rid now db =
        (.error (.http 400 ("H-Stop " ++ stop_id ++ " already released")), db)) ∧
    (st.status ≠ "released" → ∀ release2 rid2 now2,
      release_stop stop_id release2 rid2 now2 (release_stop stop_id release rid now db).2 =
        (.error (.http 400 ("H-Stop " ++ stop_id ++ " already released")),
         (release_stop stop_id release rid now db).2)) := by
  constructor
  · intro hst
    exact release_err_of_released stop_id release rid now db st hfind hst
  · intro hst release2 rid2 now2
    have hafter := release_stops_after stop_id release rid now db st hfind hst
    exact release_err_of_released stop_id release2 rid2 now2 _ _ hafter rfl

/-- C1 witness: on a store whose stop is already released the call fails
with 400 and changes nothing; releasing the active stop of `dbA` and then
releasing it again fails the same way and keeps the post-first-release
store. -/
theorem claim_C1_witness :
    (release_stop "STOP-2025-00001" ⟨"done", "op"⟩ "r1" 5 dbReleased =
      (.error (.http 400 ("H-Stop " ++ "STOP-2025-00001" ++ " already released")),
       dbReleased)) ∧
    (release_stop "STOP-2025-00001" ⟨"again", "op2"⟩ "r2" 6
        (release_stop "STOP-2025-00001" ⟨"done", "op"⟩ "r1" 5 dbA).2 =
      (.error (.http 400 ("H-Stop " ++ "STOP-2025-00001" ++ " already released")),
       (release_stop "STOP-2025-00001" ⟨"done", "op"⟩ "r1" 5 dbA).2)) := by
  constructor
  · exact (claim_C1 "STOP-2025-00001" ⟨"done", "op"⟩ "r1" 5 dbReleased
      { stopA with status := "released" } rfl).1 rfl
  · exact (claim_C1 "STOP-2025-00001" ⟨"done", "op"⟩ "r1" 5 dbA stopA rfl).2
      (by decide) ⟨"again", "op2"⟩ "r2" 6

/-- C2: when the referenced event exists, activating a stop forcibly sets
that event's stored status to `h_stop_active` and its `updated_at` to the
call's clock reading, whatever the status was before; when the referenced
`h_id` does not exist the call fails with 404 and the store (in particular
the stop table) is unchanged. -/
theorem claim_C2 (stop : HStopCreate) (rid : String) (year now : Nat) (db : DB) :
    (∀ ev, db.events.find? (fun e => e.h_id == stop.h_id) = some ev →
      ((activate_stop stop rid year now db).2).events.find?
          (fun e => e.h_id == stop.h_id) =
        some { ev with status := "h_stop_active", updated_at := now }) ∧
    (db.events.find? (fun e => e.h_id == stop.h_id) = none →
      activate_stop stop rid year now db =
        (.error (.http 404 ("H-Event " ++ stop.h_id ++ " not found")), db)) :=
  ⟨fun ev h => activate_events_after stop rid year now db ev h,
   fun h => activate_err_of_missing stop rid year now db h⟩

/-- C2 witness: activating a stop on `dbA`'s event (already `h_stop_active`)
rewrites it with the fresh clock; activating against an unknown id fails
with 404 and returns the store unchanged. -/
theorem claim_C2_witness :
    (((activate_stop ⟨"HIR-2025-00001", "pause", none, "halt", "operator", 9⟩
        "r3" 2025 7 dbA).2).events.find? (fun e => e.h_id == "HIR-2025-00001") =
      some { evA with status := "h_stop_active", updated_at := 7 }) ∧
    (activate_stop ⟨"HIR-9999-99999", "pause", none, "halt", "operator", 9⟩
        "r3" 2025 7 dbA =
      (.error (.http 404 ("H-Event " ++ "HIR-9999-99999" ++ " not found")), dbA)) :=
  ⟨(claim_C2 ⟨"HIR-2025-00001", "pause", none, "halt", "operator", 9⟩
      "r3" 2025 7 dbA).1 evA rfl,
   (claim_C2 ⟨"HIR-9999-99999", "pause", none, "halt", "operator", 9⟩
      "r3" 2025 7 dbA).2 rfl⟩

/-- C3: releasing a stop whose status is not `released` succeeds and returns
the stop marked released; if the referenced event exists with status
`h_stop_active` it is moved to `investigating` with `updated_at` refreshed,
while any other event status — or a missing event — leaves the event table
unchanged (and the release still succeeds). -/
theorem claim_C3 (stop_id : String) (release : HStopRelease) (rid : String)
    (now : Nat) (db : DB) (st : HStop)
    (hfind : db.stops.find? (fun s => s.stop_id == stop_id) = some st)
    (hst : st.status ≠ "released") :
    ((release_stop stop_id release rid now db).1 =
      .ok { st with status := "released", released_at := some now, release_reason := some release.reason }) ∧
    (∀ ev, db.events.find? (fun e => e.h_id == st.h_id) = some ev →
      (ev.status = "h_stop_active" →
        ((release_stop stop_id release rid now db).2).events.find?
            (fun e => e.h_id == st.h_id) =
          some { ev with status := "investigating", updated_at := now }) ∧
      (ev.status ≠ "h_stop_active" →
        ((release_stop stop_id release rid now db).2).events = db.events)) ∧
    (db.events.find? (fun e => e.h_id == st.h_id) = none →
      ((release_stop stop_id release rid now db).2).events = db.events) := by
  refine ⟨release_ok_of_not_released stop_id release rid now db st hfind hst,
    fun ev hev => ⟨fun hact =>
      release_events_after_active stop_id release rid now db st ev hfind hst hev hact,
      fun hact =>
      release_events_after_other stop_id release rid now db st ev hfind hst hev hact⟩,
    fun hev => release_events_after_missing stop_id release rid now db st hfind hst hev⟩

/-- C3 witness: releasing `dbA`'s active stop succeeds and moves its
`h_stop_active` event to `investigating`; on `dbNoEvent` (stop with no
matching event) the release succeeds and leaves the event table unchanged. -/
theorem claim_C3_witness :
    ((release_stop "STOP-2025-00001" ⟨"done", "op"⟩ "r1" 5 dbA).1 =
      .ok { stopA with status := "released", released_at := some 5, release_reason := some "done" }) ∧
    (((release_stop "STOP-2025-00001" ⟨"done", "op"⟩ "r1" 5 dbA).2).events.find?
        (fun e => e.h_id == stopA.h_id) =
      some { evA with status := "investigating", updated_at := 5 }) ∧
    ((release_stop "STOP-2025-00001" ⟨"done", "op"⟩ "r1" 5 dbNoEvent).2).events =
      dbNoEvent.events :=
  ⟨(claim_C3 "STOP-2025-00001" ⟨"done", "op"⟩ "r1" 5 dbA stopA rfl (by decide)).1,
   ((claim_C3 "STOP-2025-00001" ⟨"done", "op"⟩ "r1" 5 dbA stopA rfl (by decide)).2.1
      evA rfl).1 rfl,
   (claim_C3 "STOP-2025-00001" ⟨"done", "op"⟩ "r1" 5 dbNoEvent stopA rfl
      (by decide)).2.2 rfl⟩

/-- C4: every mutating handler appends exactly one audit entry on success —
with module `h_event`/`h_stop`/`r0` and action `created`/`activated`/
`released`/`initiated`/`updated`/`status_updated` matching the operation —
and appends nothing on failure; in every case the new audit list extends
the old one, so existing entries are never mutated or deleted. -/
theorem claim_C4 :
    (∀ (event : HEventCreate) (rid : String) (year now : Nat) (db : DB),
      ((create_event event rid year now db).2).logs = db.logs ++
        [⟨rid, "h_event", "created", some (generate_h_id year db),
          some event.source_type, some (.severityOf event.severity), now⟩]) ∧
    (∀ (stop : HStopCreate) (rid : String) (year now : Nat) (db : DB),
      ((activate_stop stop rid year now db).2).logs = db.logs ++
        (match db.events.find? (fun e => e.h_id == stop.h_id) with
         | some _ => [⟨rid, "h_stop", "activated", some (generate_stop_id year db),
             some stop.initiated_by, some (.stopInfo stop.h_id stop.measure), now⟩]
         | none => [])) ∧
    (∀ (stop_id : String) (release : HStopRelease) (rid : String) (now : Nat) (db : DB),
      ((release_stop stop_id release rid now db).2).logs = db.logs ++
        (match db.stops.find? (fun s => s.stop_id == stop_id) with
         | some st =>
           if st.status == "released" then []
           else [⟨rid, "h_stop", "released", some stop_id, some release.released_by,
             some (.releaseInfo release.reason), now⟩]
         | none => [])) ∧
    (∀ (recovery : RecoveryCreate) (rid : String) (year now : Nat) (db : DB),
      ((initiate_recovery recovery rid year now db).2).logs = db.logs ++
        (match db.events.find? (fun e => e.h_id == recovery.h_id) with
         | some _ => [⟨rid, "r0", "initiated", some (generate_recovery_id year db),
             none, some (.recoveryInit recovery.h_id recovery.affected_count), now⟩]
         | none => [])) ∧
    (∀ (recovery_id : String) (update : RecoveryUpdate) (rid : String) (now : Nat) (db : DB),
      ((update_recovery recovery_id update rid now db).2).logs = db.logs ++
        (match db.recoveries.find? (fun r => r.recovery_id == recovery_id) with
         | some _ => [⟨rid, "r0", "updated", some recovery_id, none,
             some (.recoveryStatus update.status), now⟩]
         | none => [])) ∧
    (∀ (h_id : String) (update : HEventStatusUpdate) (rid : String) (now : Nat) (db : DB),
      ((update_event_status h_id update rid now db).2).logs = db.logs ++
        (match db.events.find? (fun e => e.h_id == h_id) with
         | some ev => [⟨rid, "h_event", "status_updated", some h_id, none,
             some (.statusChange (some ev.status) (some update.status) (some update.reason)), now⟩]
         | none => [])) :=
  ⟨logs_after_create, logs_after_activate, logs_after_release,
   logs_after_initiate, logs_after_upd_recovery, logs_after_upd_status⟩

/-- C6: an update on an existing recovery overwrites each of status,
measures and notes only when the supplied value is truthy (non-`None`,
non-empty); an omitted field, an empty list or an empty string leaves the
stored value exactly unchanged; in particular supplying only `status`
leaves `measures` and `notes` unchanged. -/
theorem claim_C6 (recovery_id : String) (update : RecoveryUpdate) (rid : String)
    (now : Nat) (db : DB) (rec : Recovery)
    (hfind : db.recoveries.find? (fun r => r.recovery_id == recovery_id) = some rec) :
    ((update_recovery recovery_id update rid now db).1 =
      .ok (apply_recovery_update update now rec)) ∧
    (((update_recovery recovery_id update rid now db).2).recoveries.find?
        (fun r => r.recovery_id == recovery_id) =
      some (apply_recovery_update update now rec)) ∧
    (truthyStr update.status = false →
      (apply_recovery_update update now rec).status = rec.status) ∧
    (∀ s, update.status = some s → s ≠ "" →
      (apply_recovery_update update now rec).status = s) ∧
    (truthyList update.measures = false →
      (apply_recovery_update update now rec).measures = rec.measures) ∧
    (∀ m, update.measures = some m → m ≠ [] →
      (apply_recovery_update update now rec).measures = some m) ∧
    (truthyStr update.notes = false →
      (apply_recovery_update update now rec).notes = rec.notes) ∧
    (∀ t, update.notes = some t → t ≠ "" →
      (apply_recovery_update update now rec).notes = some t) ∧
    (update.measures = none → update.notes = none →
      (apply_recovery_update update now rec).measures = rec.measures ∧
      (apply_recovery_update update now rec).notes = rec.notes) := by
  refine ⟨upd_recovery_ok recovery_id update rid now db rec hfind,
    upd_recovery_stored recovery_id update rid now db rec hfind, ?_, ?_, ?_, ?_, ?_, ?_, ?_⟩
  · intro h
    simp [apply_recovery_update, h]
  · intro s hs hne
    have ht : truthyStr (some s) = true := by simp [truthyStr, hne]
    simp [apply_recovery_update, hs, ht]
  · intro h
    simp [apply_recovery_update, h]
  · intro m hm hne
    have ht : truthyList (some m) = true := by
      simp [truthyList, List.isEmpty_iff, hne]
    simp [apply_recovery_update, hm, ht]
  · intro h
    simp [apply_recovery_update, h]
  · intro t ht hne
    have htr : truthyStr (some t) = true := by simp [truthyStr, hne]
    simp [apply_recovery_update, ht, htr]
  · intro hm hn
    constructor
    · simp [apply_recovery_update, truthyList, hm]
    · simp [apply_recovery_update, truthyStr, hn]

/-- C6 witness: updating `dbA`'s recovery with only a status supplied
changes the stored status and leaves measures and notes untouched. -/
theorem claim_C6_witness :
    ((update_recovery "R0-2025-00001" ⟨some "in_progress", none, none⟩ "r4" 8 dbA).1 =
      .ok (apply_recovery_update ⟨some "in_progress", none, none⟩ 8 recA)) ∧
    ((apply_recovery_update ⟨some "in_progress", none, none⟩ 8 recA).status =
      "in_progress") ∧
    ((apply_recovery_update ⟨some "in_progress", none, none⟩ 8 recA).measures =
      recA.measures ∧
     (apply_recovery_update ⟨some "in_progress", none, none⟩ 8 recA).notes =
      recA.notes) :=
  ⟨(claim_C6 "R0-2025-00001" ⟨some "in_progress", none, none⟩ "r4" 8 dbA recA rfl).1,
   (claim_C6 "R0-2025-00001" ⟨some "in_progress", none, none⟩ "r4" 8 dbA recA
      rfl).2.2.2.1 "in_progress" rfl (by decide),
   (claim_C6 "R0-2025-00001" ⟨some "in_progress", none, none⟩ "r4" 8 dbA recA
      rfl).2.2.2.2.2.2.2.2 rfl rfl⟩

/-- C7: a status update fails with 404 when the event is absent; otherwise
it overwrites the status with the supplied value unconditionally (any
string is accepted), refreshes `updated_at`, and appends one audit entry
recording the old status, the new status and the caller's reason. -/
theorem claim_C7 (h_id : String) (update : HEventStatusUpdate) (rid : String)
    (now : Nat) (db : DB) :
    (db.events.find? (fun e => e.h_id == h_id) = none →
      update_event_status h_id update rid now db =
        (.error (.http 404 ("H-Event " ++ h_id ++ " not found")), db)) ∧
    (∀ ev, db.events.find? (fun e => e.h_id == h_id) = some ev →
      ((update_event_status h_id update rid now db).1 =
        .ok { ev with status := update.status, updated_at := now }) ∧
      (((update_event_status h_id update rid now db).2).events.find?
          (fun e => e.h_id == h_id) =
        some { ev with status := update.status, updated_at := now }) ∧
      (((update_event_status h_id update rid now db).2).logs = db.logs ++
        [⟨rid, "h_event", "status_updated", some h_id, none,
          some (.statusChange (some ev.status) (some update.status) (some update.reason)), now⟩])) := by
  refine ⟨fun h => upd_status_err_of_missing h_id update rid now db h, fun ev hev => ?_⟩
  refine ⟨upd_status_ok h_id update rid now db ev hev,
    upd_status_events_after h_id update rid now db ev hev, ?_⟩
  rw [logs_after_upd_status, hev]

/-- C7 witness: updating `dbA`'s event to the out-of-enum status
`"totally_custom"` succeeds, stores it, and logs old and new status; a
missing id yields 404. -/
theorem claim_C7_witness :
    (update_event_status "HIR-0000-00000" ⟨"x", "y"⟩ "r5" 9 dbA =
      (.error (.http 404 ("H-Event " ++ "HIR-0000-00000" ++ " not found")), dbA)) ∧
    ((update_event_status "HIR-2025-00001" ⟨"totally_custom", "because"⟩ "r5" 9 dbA).1 =
      .ok { evA with status := "totally_custom", updated_at := 9 }) ∧
    (((update_event_status "HIR-2025-00001" ⟨"totally_custom", "because"⟩ "r5" 9 dbA).2).logs =
      dbA.logs ++ [⟨"r5", "h_event", "status_updated", some "HIR-2025-00001", none,
        some (.statusChange (some evA.status) (some "totally_custom") (some "because")), 9⟩]) :=
  ⟨(claim_C7 "HIR-0000-00000" ⟨"x", "y"⟩ "r5" 9 dbA).1 rfl,
   ((claim_C7 "HIR-2025-00001" ⟨"totally_custom", "because"⟩ "r5" 9 dbA).2 evA rfl).1,
   ((claim_C7 "HIR-2025-00001" ⟨"totally_custom", "because"⟩ "r5" 9 dbA).2 evA rfl).2.2⟩

/-- C9: the only stored stop status that makes a release fail (once the
stop is found) is `released`: a stop with status `extended` — or any other
non-`released` value — is released exactly like an `active` one, and any
error from a found stop implies its status was `released`. -/
theorem claim_C9 (stop_id : String) (release : HStopRelease) (rid : String)
    (now : Nat) (db : DB) (st : HStop)
    (hfind : db.stops.find? (fun s => s.stop_id == stop_id) = some st) :
    (st.status = "extended" →
      (release_stop stop_id release rid now db).1 =
        .ok { st with status := "released", released_at := some now, release_reason := some release.reason }) ∧
    (st.status ≠ "released" →
      (release_stop stop_id release rid now db).1 =
        .ok { st with status := "released", released_at := some now, release_reason := some release.reason }) ∧
    (∀ e, (release_stop stop_id release rid now db).1 = .error e →
      st.status = "released") := by
  refine ⟨fun hext => release_ok_of_not_released stop_id release rid now db st hfind
      (by simp [hext]),
    fun hst => release_ok_of_not_released stop_id release rid now db st hfind hst,
    fun e herr => ?_⟩
  by_cases hst : st.status = "released"
  · exact hst
  · rw [release_ok_of_not_released stop_id release rid now db st hfind hst] at herr
    cases herr

/-- C9 witness: releasing the `extended` stop of `dbExtended` succeeds and
marks it released. -/
theorem claim_C9_witness :
    (release_stop "STOP-2025-00001" ⟨"done", "op"⟩ "r6" 5 dbExtended).1 =
      .ok { stopA with status := "released", released_at := some 5, release_reason := some "done" } := by
  have h := (claim_C9 "STOP-2025-00001" ⟨"done", "op"⟩ "r6" 5 dbExtended
    { stopA with status := "extended" } rfl).1 rfl
  simpa using h

/-- C10: an update of an existing recovery that supplies nothing truthy (no
status, no measures, no notes, or only empty values) is not rejected: it
succeeds, leaves the stored status, measures and notes unchanged, still
refreshes `updated_at`, and appends one `r0/updated` audit entry. -/
theorem claim_C10 (recovery_id : String) (update : RecoveryUpdate) (rid : String)
    (now : Nat) (db : DB) (rec : Recovery)
    (hfind : db.recoveries.find? (fun r => r.recovery_id == recovery_id) = some rec)
    (hs : truthyStr update.status = false) (hm : truthyList update.measures = false)
    (hn : truthyStr update.notes = false) :
    ((update_recovery recovery_id update rid now db).1 =
      .ok { rec with updated_at := now }) ∧
    (((update_recovery recovery_id update rid now db).2).recoveries.find?
        (fun r => r.recovery_id == recovery_id) =
      some { rec with updated_at := now }) ∧
    (((update_recovery recovery_id update rid now db).2).logs = db.logs ++
      [⟨rid, "r0", "updated", some recovery_id, none,
        some (.recoveryStatus update.status), now⟩]) := by
  have happ : apply_recovery_update update now rec = { rec with updated_at := now } := by
    simp [apply_recovery_update, hs, hm, hn]
  refine ⟨?_, ?_, ?_⟩
  · rw [upd_recovery_ok recovery_id update rid now db rec hfind, happ]
  · rw [upd_recovery_stored recovery_id update rid now db rec hfind, happ]
  · rw [logs_after_upd_recovery, hfind]

/-- C10 witness: the all-empty update on `dbA`'s recovery succeeds, keeps
all fields, bumps `updated_at` to the clock reading and logs one entry. -/
theorem claim_C10_witness :
    ((update_recovery "R0-2025-00001" ⟨none, some [], some ""⟩ "r7" 11 dbA).1 =
      .ok { recA with updated_at := 11 }) ∧
    (((update_recovery "R0-2025-00001" ⟨none, some [], some ""⟩ "r7" 11 dbA).2).logs =
      dbA.logs ++ [⟨"r7", "r0", "updated", some "R0-2025-00001", none,
        some (.recoveryStatus none), 11⟩]) :=
  ⟨(claim_C10 "R0-2025-00001" ⟨none, some [], some ""⟩ "r7" 11 dbA recA rfl
      rfl rfl rfl).1,
   (claim_C10 "R0-2025-00001" ⟨none, some [], some ""⟩ "r7" 11 dbA recA rfl
      rfl rfl rfl).2.2⟩

/-- C8 counterexample to the claim as stated: with `limit=1001` the request
is rejected by the declared `le=1000` validation — it is not capped at 1000
and returns no entries at all. -/
theorem claim_C8_counterexample :
    get_logs none none (some 1001) initDB = .error .validation ∧
    ¬ ∃ es, get_logs none none (some 1001) initDB = .ok es := by
  refine ⟨rfl, ?_⟩
  rintro ⟨es, hes⟩
  rw [show get_logs none none (some 1001) initDB = .error .validation from rfl] at hes
  cases hes

/-- C8 (amended): for `limit=N` with `N ≤ 1000` the audit-log query
succeeds and returns at most `min N 1000` entries ordered by timestamp
descending (newest first); an omitted limit behaves exactly like
`limit=100`; a limit greater than 1000 is rejected by the parameter
validation rather than capped. -/
theorem claim_C8 (module target_id : Option String) (db : DB) :
    (∀ N es, N ≤ 1000 → get_logs module target_id (some N) db = .ok es →
      es.length ≤ min N 1000 ∧ es.Sorted logNewerEq) ∧
    (get_logs module target_id none db = get_logs module target_id (some 100) db) ∧
    (∀ N, 1000 < N → get_logs module target_id (some N) db = .error .validation) := by
  refine ⟨?_, rfl, ?_⟩
  · intro N es hN hok
    simp only [get_logs, Option.getD_some] at hok
    rw [if_neg (by omega)] at hok
    simp only [Except.ok.injEq] at hok
    subst hok
    constructor
    · simp only [List.length_take]
      omega
    · exact List.Pairwise.sublist (List.take_sublist _ _)
        (List.sorted_insertionSort logNewerEq _)
  · intro N hgt
    simp only [get_logs, Option.getD_some]
    rw [if_pos hgt]

/-- C8 witness: `limit=5` on the empty store succeeds with an empty, hence
short and sorted, result; `limit=1001` is rejected. -/
theorem claim_C8_witness :
    (([] : List ObserveLog).length ≤ min 5 1000 ∧
      ([] : List ObserveLog).Sorted logNewerEq) ∧
    get_logs none none (some 1001) initDB = .error .validation :=
  ⟨(claim_C8 none none initDB).1 5 [] (by omega) rfl,
   (claim_C8 none none initDB).2.2 1001 (by omega)⟩

/-- C5: from any reachable store, creating an event returns the id
`HIR-<year>-<zero-padded count+1>` built from the global row count (not a
per-year counter), matching the `HIR-<4-digit-year>-<5-digit-seq>` shape
whenever the clock year has four digits and the counter has not overflowed
five digits; the record is stored with status `registered`, and the new id
differs from every existing id, so ids remain unique across the store. -/
theorem claim_C5 (db : DB) (event : HEventCreate) (rid : String) (year now : Nat)
    (hreach : Reachable db) (hy1 : 1000 ≤ year) (hy2 : year ≤ 9999)
    (hseq : db.events.length + 1 < 100000) :
    ((create_event event rid year now db).1.h_id = mkHId year (db.events.length + 1)) ∧
    (matchesHIRPattern ((create_event event rid year now db).1.h_id) = true) ∧
    ((create_event event rid year now db).1.status = "registered") ∧
    ((create_event event rid year now db).1.h_id ∉ db.events.map HEvent.h_id) ∧
    (((create_event event rid year now db).2).events.map HEvent.h_id).Nodup := by
  have hg := reachable_goodIds hreach
  have hnm : mkHId year (db.events.length + 1) ∉ db.events.map HEvent.h_id := by
    refine goodIds_not_mem _ hg year (db.events.length + 1) ?_
    simp
  refine ⟨rfl, ?_, rfl, ?_, ?_⟩
  · rw [show (create_event event rid year now db).1.h_id =
        mkHId year (db.events.length + 1) from rfl]
    exact matchesHIRPattern_mkHId year (db.events.length + 1) hy1 hy2 hseq
  · rw [show (create_event event rid year now db).1.h_id =
        mkHId year (db.events.length + 1) from rfl]
    exact hnm
  · rw [events_map_h_id_create_event]
    apply goodIds_nodup
    have hlen : db.events.length = (db.events.map HEvent.h_id).length := by simp
    rw [hlen]
    exact goodIds_append _ year hg

/-- C5 witness: creating the first event of an empty store in year 2025
yields `HIR-2025-00001`, well-formed, fresh, with status `registered`. -/
theorem claim_C5_witness :
    ((create_event evReq "r8" 2025 3 initDB).1.h_id =
      mkHId 2025 (initDB.events.length + 1)) ∧
    (matchesHIRPattern ((create_event evReq "r8" 2025 3 initDB).1.h_id) = true) ∧
    ((create_event evReq "r8" 2025 3 initDB).1.status = "registered") ∧
    ((create_event evReq "r8" 2025 3 initDB).1.h_id ∉ initDB.events.map HEvent.h_id) ∧
    (((create_event evReq "r8" 2025 3 initDB).2).events.map HEvent.h_id).Nodup :=
  claim_C5 initDB evReq "r8" 2025 3 Reachable.init (by omega) (by omega) (by decide)
